import Mathlib

/-!
Shallow embedding of the X1 token-audit engine.

The definitions below are translated from the JavaScript sources of the
repository:

* `readUInt32LE`, `readUInt8`, `decodeMintFields`, `checkTokenAuthorities`
  embed the pure byte-decoding core of `checkTokenAuthorities`
  (src/unnamed/part_006, lines 192-232) and `checkMintAccount`
  (src/x1-token-audit.js, lines 140-189); both scripts share the same
  byte-level logic.
* `calculateRiskScore` and `getRiskRating` embed the risk scorer and the
  category function of src/unnamed/part_006 (lines 402-452).
* `batchCalculateRiskScore` embeds `calculateRiskScore` of
  src/x1-batch-audit.js (lines 213-230).
* `getTokenHolders` embeds the holder-listing function of
  src/unnamed/part_006 (lines 234-283).
* `findXDEXPools` embeds src/x1-token-audit.js lines 192-211, and
  `mainFetchPools` embeds the pool-list fetch of the orchestrator `main`
  in src/unnamed/part_006 (lines 480-490), where a fetch error calls
  `process.exit(1)` and is therefore modelled as an `Except.error`.
* `burnIxEvents`, `closeAccountPass`, `processTx`, `scanBurnEvents`
  embed the burn-event transaction scan of `main` in src/unnamed/part_006
  (lines 544-620), and `computeLpBurn` the percentage computation that
  follows it (lines 622-696).

JavaScript numbers that hold token amounts and percentages are modelled
as exact rationals; machine-level floating point rounding is not part of
the model.  Byte buffers are lists of naturals, read with the semantics
of the Node `readUInt32LE` and `readUInt8` accessors.
-/

namespace X1Audit

/-- Node Buffer.readUInt32LE: the little-endian 32-bit word at `off`.
Out-of-range reads are modelled as zero bytes; every theorem that needs
real bytes carries the length bound of the source guard. -/
def readUInt32LE (data : List Nat) (off : Nat) : Nat :=
  data.getD off 0 + data.getD (off + 1) 0 * 256 +
    data.getD (off + 2) 0 * 65536 + data.getD (off + 3) 0 * 16777216

/-- Node Buffer.readUInt8: the byte at `off`. -/
def readUInt8 (data : List Nat) (off : Nat) : Nat :=
  data.getD off 0

/-- Result record of `checkTokenAuthorities` (src/unnamed/part_006,
lines 193-200).  Authority pubkeys are kept as raw 32-byte slices. -/
structure MintAuthorityInfo where
  mintAuthority : Option (List Nat)
  mintAuthorityRevoked : Bool
  freezeAuthority : Option (List Nat)
  freezeAuthorityRevoked : Bool
  supply : Nat
  decimals : Nat
deriving Repr, DecidableEq

/-- The initial result value of `checkTokenAuthorities`: no authorities,
neither flagged revoked, zero supply and decimals. -/
def defaultMintInfo : MintAuthorityInfo :=
  { mintAuthority := none, mintAuthorityRevoked := false,
    freezeAuthority := none, freezeAuthorityRevoked := false,
    supply := 0, decimals := 0 }

/-- Body of the `data.length >= 82` branch of `checkTokenAuthorities`
(src/unnamed/part_006, lines 208-225): option-coded authorities at
offsets 0 and 46, supply as two little-endian 32-bit words combined with
shift and bitwise or, decimals at offset 44. -/
def decodeMintFields (data : List Nat) : MintAuthorityInfo :=
  let mintAuthOption := readUInt32LE data 0
  let r1 :=
    if mintAuthOption = 1 then
      { defaultMintInfo with mintAuthority := some ((data.drop 4).take 32) }
    else
      { defaultMintInfo with mintAuthorityRevoked := true }
  let supplyLow := readUInt32LE data 36
  let supplyHigh := readUInt32LE data 40
  let r2 := { r1 with
    supply := (supplyHigh <<< 32) ||| supplyLow,
    decimals := readUInt8 data 44 }
  let freezeAuthOption := readUInt32LE data 46
  if freezeAuthOption = 1 then
    { r2 with freezeAuthority := some ((data.drop 50).take 32) }
  else
    { r2 with freezeAuthorityRevoked := true }

/-- The pure core of `checkTokenAuthorities` (src/unnamed/part_006,
lines 192-232): fields are decoded only when the account data is at
least 82 bytes long; shorter data leaves the initial result untouched.
The function has no failure path. -/
def checkTokenAuthorities (data : List Nat) : MintAuthorityInfo :=
  if 82 ≤ data.length then decodeMintFields data else defaultMintInfo

/-- Authority flags consumed by the part_006 risk scorer. -/
structure TokenAuthFlags where
  mintAuthorityRevoked : Bool
  freezeAuthorityRevoked : Bool
deriving Repr, DecidableEq

/-- One entry of the holder list built by `getTokenHolders`. -/
structure Holder where
  address : String
  amount : ℚ
  pct : ℚ
deriving Repr, DecidableEq

/-- Holder data consumed by the part_006 risk scorer. -/
structure HolderData where
  topHolders : List Holder
deriving Repr, DecidableEq

/-- Risk scorer of src/unnamed/part_006 (lines 402-444).  The burn
status argument is reduced to the only field the function reads,
`burnPercentage`; `poolsCount` is accepted and, as in the source, never
read. -/
def calculateRiskScore (tokenInfo : TokenAuthFlags) (burnPercentage : ℚ)
    (holderData : HolderData) (poolsCount : Nat) : Nat :=
  let score : Nat := 0
  let score := if tokenInfo.mintAuthorityRevoked = false then score + 30 else score
  let score := if tokenInfo.freezeAuthorityRevoked = false then score + 20 else score
  let lpBurnedPct := burnPercentage
  let score :=
    if 90 ≤ lpBurnedPct then score + 0
    else if 50 ≤ lpBurnedPct then score + 5
    else if 25 ≤ lpBurnedPct then score + 10
    else if 10 ≤ lpBurnedPct then score + 15
    else score + 25
  let score :=
    if 0 < holderData.topHolders.length then
      let topHoldersPct := ((holderData.topHolders.take 5).map (·.pct)).sum
      if 50 < topHoldersPct then score + 20
      else if 30 < topHoldersPct then score + 10
      else score
    else score
  let _ := poolsCount
  min score 100

/-- Risk categories of `getRiskRating`. -/
inductive RiskRating where
  | LOW
  | MEDIUM
  | HIGH
  | CRITICAL
deriving Repr, DecidableEq

/-- Category function `getRiskRating` of src/unnamed/part_006
(lines 446-452), with its non-strict comparisons kept as written. -/
def getRiskRating (score : Nat) : RiskRating :=
  if score = 0 then .LOW
  else if score ≤ 25 then .LOW
  else if score ≤ 50 then .MEDIUM
  else if score ≤ 75 then .HIGH
  else .CRITICAL

/-- Category legend printed by the same script (src/unnamed/part_006,
lines 806-809) and implemented by the rating logic of
src/x1-token-audit.js lines 562-567: 0-24 LOW, 25-49 MEDIUM,
50-75 HIGH, 76-100 CRITICAL. -/
def legendRiskRating (score : Nat) : RiskRating :=
  if score ≤ 24 then .LOW
  else if score ≤ 49 then .MEDIUM
  else if score ≤ 75 then .HIGH
  else .CRITICAL

/-- Audit record consumed by the batch risk scorer
(src/x1-batch-audit.js).  `holderCount = 0` plays the role of the falsy
JavaScript value. -/
structure BatchAudit where
  mintAuthorityRevoked : Bool
  freezeAuthorityRevoked : Bool
  lpNotBurned : Bool
  holderCount : Nat
deriving Repr, DecidableEq

/-- Risk scorer of src/x1-batch-audit.js (lines 213-230): points are
added when the authority flags say revoked. -/
def batchCalculateRiskScore (audit : BatchAudit) : Nat :=
  let score : Nat := 0
  let score := if audit.mintAuthorityRevoked then score + 30 else score
  let score := if audit.freezeAuthorityRevoked then score + 20 else score
  let score := if audit.lpNotBurned then score + 25 else score
  let score :=
    if audit.holderCount ≠ 0 ∧ 1000 < audit.holderCount then score + 10
    else if audit.holderCount ≠ 0 then score + 20
    else score
  score

/-- The registry of permanent sink addresses, `BURN_ADDRESSES` of
src/unnamed/part_006 (lines 21-25). -/
def BURN_ADDRESSES : List String :=
  ["1nc1nerator11111111111111111111111111111111",
   "11111111111111111111111111111111",
   "1111111111111111111111111111111111111111111"]

/-- A parsed token account as consumed by `getTokenHolders`: the owner
and the parsed `uiAmountString` balance.  Accounts whose lookup fails or
whose parsed info is missing are the `none` entries of the input list
and are skipped, as in the source. -/
structure ParsedTokenAccount where
  owner : String
  amount : ℚ
deriving Repr, DecidableEq

/-- Return shape of `getTokenHolders`. -/
structure HoldersResult where
  totalHolders : Nat
  topHolders : List Holder
  totalSupply : ℚ
deriving Repr, DecidableEq

/-- Holder-listing function `getTokenHolders` of src/unnamed/part_006
(lines 234-283): burn-owned accounts and zero balances are excluded
from the holder list, while every scanned balance, burn-owned included,
is accumulated into `totalSupply`; percentages are assigned from that
total when it is positive; the list is sorted by amount descending and
cut to the top ten. -/
def getTokenHolders (accounts : List (Option ParsedTokenAccount)) : HoldersResult :=
  let scanned := accounts.filterMap id
  let holders := scanned.filterMap fun a =>
    if ¬ BURN_ADDRESSES.contains a.owner ∧ 0 < a.amount then
      some { address := a.owner, amount := a.amount, pct := 0 }
    else none
  let totalSupply : ℚ := (scanned.map (·.amount)).sum
  let holders :=
    if 0 < totalSupply then
      holders.map fun h => { h with pct := h.amount / totalSupply * 100 }
    else holders
  let holders := holders.mergeSort fun a b => decide (b.amount ≤ a.amount)
  { totalHolders := holders.length,
    topHolders := holders.take 10,
    totalSupply := totalSupply }

/-- A pool entry as read by the resolver: only the two pair addresses
are inspected. -/
structure XPool where
  token1_address : String
  token2_address : String
deriving Repr, DecidableEq

/-- Pool resolver `findXDEXPools` of src/x1-token-audit.js
(lines 192-211).  The collaborator call is passed in as its outcome: an
exception, a missing or non-array payload (`none`), or the pool list.
An exception or a missing payload yields the empty list. -/
def findXDEXPools (tokenAddress : String)
    (fetched : Except String (Option (List XPool))) : List XPool :=
  match fetched with
  | .error _ => []
  | .ok none => []
  | .ok (some poolList) =>
      poolList.filter fun pool =>
        pool.token1_address = tokenAddress ∨ pool.token2_address = tokenAddress

/-- Pool-list fetch of the orchestrator `main` in src/unnamed/part_006
(lines 480-490): the same exact-equality filter, but a fetch error runs
`process.exit(1)`, modelled as the `Except.error` outcome of the whole
audit. -/
def mainFetchPools (tokenAddress : String)
    (fetched : Except String (Option (List XPool))) : Except String (List XPool) :=
  match fetched with
  | .error e => .error e
  | .ok d =>
      .ok ((d.getD []).filter fun p =>
        p.token1_address = tokenAddress ∨ p.token2_address = tokenAddress)

/-- JavaScript `x || y` on an optional number: `undefined` and `0` are
falsy and select the fallback. -/
def jsOrQ (x : Option ℚ) (y : ℚ) : ℚ :=
  match x with
  | some v => if v = 0 then y else v
  | none => y

/-- JavaScript `x || y` on an optional natural. -/
def jsOrNat (x : Option Nat) (y : Nat) : Nat :=
  match x with
  | some v => if v = 0 then y else v
  | none => y

/-- The `tokenAmount` sub-record of a parsed burn instruction. -/
structure TokenAmountInfo where
  uiAmount : Option ℚ
  decimals : Option Nat
deriving Repr, DecidableEq

/-- The `info` record of a parsed instruction, restricted to the fields
the scanner reads. -/
structure IxInfo where
  tokenAmount : Option TokenAmountInfo
  amount : Option ℚ
  authority : Option String
  mint : Option String
deriving Repr, DecidableEq

/-- A parsed instruction: its `type` tag and its `info`. -/
structure ParsedIx where
  typ : String
  info : IxInfo
deriving Repr, DecidableEq

/-- An instruction of a transaction message; `parsed` is absent for
instructions the RPC node could not decode. -/
structure Instruction where
  parsed : Option ParsedIx
deriving Repr, DecidableEq

/-- A pre or post token balance from transaction metadata. -/
structure TokenBalance where
  accountIndex : Nat
  mint : String
  uiAmount : ℚ
deriving Repr, DecidableEq

/-- Transaction metadata: the two balance sets, each possibly absent. -/
structure TxMeta where
  preTokenBalances : Option (List TokenBalance)
  postTokenBalances : Option (List TokenBalance)
deriving Repr, DecidableEq

/-- A parsed transaction with its instruction list and metadata. -/
structure ParsedTx where
  instructions : List Instruction
  meta : Option TxMeta
deriving Repr, DecidableEq

/-- A signature entry from `getSignaturesForAddress`. -/
structure SigInfo where
  signature : String
  blockTime : Option Nat
deriving Repr, DecidableEq

/-- One signature together with the outcome of
`getParsedTransaction`; `none` models a failed or empty lookup, which
the scanner skips. -/
structure TxRecord where
  sigInfo : SigInfo
  tx : Option ParsedTx
deriving Repr, DecidableEq

/-- A burn event pushed into `burnCheckedTxs` by the scanner. -/
structure BurnEvent where
  signature : String
  date : Option Nat
  typ : String
  amount : ℚ
  authority : String
  mint : String
deriving Repr, DecidableEq

/-- Detection method 1 of the scan in `main` (src/unnamed/part_006,
lines 563-581): every parsed instruction tagged `burnChecked` or `burn`
yields one event; the amount falls back from `tokenAmount.uiAmount` to
`amount / 10 ^ decimals` through the JavaScript truthiness of `||`. -/
def burnIxEvents (sigInfo : SigInfo) (lpMint : String) (tx : ParsedTx) :
    List BurnEvent :=
  tx.instructions.filterMap fun ix =>
    match ix.parsed with
    | none => none
    | some p =>
      if p.typ = "burnChecked" ∨ p.typ = "burn" then
        let decimals := jsOrNat (p.info.tokenAmount.bind (·.decimals)) 9
        let amount := jsOrQ (p.info.tokenAmount.bind (·.uiAmount))
          ((p.info.amount.getD 0) / 10 ^ decimals)
        some { signature := sigInfo.signature, date := sigInfo.blockTime,
               typ := p.typ, amount := amount,
               authority := p.info.authority.getD "Unknown",
               mint := p.info.mint.getD lpMint }
      else none

/-- Whether the transaction carries a `closeAccount` or `closeChecked`
instruction (src/unnamed/part_006, lines 595-597). -/
def hasCloseIx (tx : ParsedTx) : Bool :=
  tx.instructions.any fun ix =>
    match ix.parsed with
    | some p => p.typ = "closeAccount" ∨ p.typ = "closeChecked"
    | none => false

/-- One step of the pre-balance loop of detection method 2
(src/unnamed/part_006, lines 586-611): a pre balance of the scanned
mint that was positive and became zero yields one
`closeAccount (burn)` event, provided the transaction closes an
account and no event with the same signature is already recorded. -/
def closeStep (sigInfo : SigInfo) (lpMint : String) (tx : ParsedTx)
    (posts : List TokenBalance) (evs : List BurnEvent) (pre : TokenBalance) :
    List BurnEvent :=
  if pre.mint ≠ lpMint then evs
  else if pre.uiAmount ≤ (0 : ℚ) then evs
  else
    let post := posts.find? fun p =>
      p.accountIndex = pre.accountIndex ∧ p.mint = lpMint
    let postAmount : ℚ := match post with
      | some p => p.uiAmount
      | none => 0
    if postAmount = 0 ∧ 0 < pre.uiAmount then
      if hasCloseIx tx ∧ ¬ evs.any (·.signature = sigInfo.signature) then
        evs ++ [{ signature := sigInfo.signature,
                  date := sigInfo.blockTime,
                  typ := "closeAccount (burn)",
                  amount := pre.uiAmount,
                  authority := "closeAccount", mint := lpMint }]
      else evs
    else evs

/-- Detection method 2 of the scan in `main` (src/unnamed/part_006,
lines 584-612): the pre-balance loop runs only when both balance sets
are present. -/
def closeAccountPass (sigInfo : SigInfo) (lpMint : String) (tx : ParsedTx)
    (events : List BurnEvent) : List BurnEvent :=
  match tx.meta with
  | none => events
  | some meta =>
    match meta.preTokenBalances, meta.postTokenBalances with
    | some pres, some posts =>
        pres.foldl (closeStep sigInfo lpMint tx posts) events
    | _, _ => events

/-- Processing of one signature in the scan loop: a failed transaction
lookup is skipped; otherwise method 1 appends its events and method 2
runs over the extended list. -/
def processTx (lpMint : String) (events : List BurnEvent)
    (txRecord : TxRecord) : List BurnEvent :=
  match txRecord.tx with
  | none => events
  | some tx =>
      closeAccountPass txRecord.sigInfo lpMint tx
        (events ++ burnIxEvents txRecord.sigInfo lpMint tx)

/-- The scan loop over the signatures of one LP mint. -/
def scanLpMint (events : List BurnEvent) (lpMint : String)
    (txs : List TxRecord) : List BurnEvent :=
  txs.foldl (processTx lpMint) events

/-- The whole scan of `main` (src/unnamed/part_006, lines 544-620): the
unique LP mints are visited in order, accumulating one global event
list. -/
def scanBurnEvents (mints : List (String × List TxRecord)) : List BurnEvent :=
  mints.foldl (fun evs m => scanLpMint evs m.1 m.2) []

/-- The summed destroyed total `totalBurnChecked`
(src/unnamed/part_006, line 622). -/
def totalBurnChecked (events : List BurnEvent) : ℚ :=
  (events.map (·.amount)).sum

/-- Outcome of the LP-burn percentage computation of `main`. -/
structure LpBurnCalc where
  lpBurnedPct : ℚ
  originalLPIsSuspicious : Bool
  totalOriginalLP : ℚ
deriving Repr, DecidableEq

/-- LP-burn percentage computation of `main` (src/unnamed/part_006,
lines 647-690), as a function of the aggregated totals: reported
original LP supply, current circulating LP supply, burn-instruction
total and sink-address total.  When burn evidence exists, the current
supply is positive and the reported original supply is zero, the
original supply is re-estimated as current plus destroyed and the
result is flagged suspicious; the percentage branches then follow the
source, each capped at 99.9. -/
def computeLpBurn (reportedOriginalLP totalCurrentLP burnCheckedTotal
    burnedBurnAddr : ℚ) : LpBurnCalc :=
  let hasBurnData := 0 < burnCheckedTotal ∨ 0 < burnedBurnAddr
  let step :=
    if hasBurnData ∧ 0 < totalCurrentLP then
      let estimatedOriginal := totalCurrentLP + burnCheckedTotal + burnedBurnAddr
      if reportedOriginalLP = 0 then (estimatedOriginal, true)
      else (reportedOriginalLP, false)
    else (reportedOriginalLP, false)
  let totalOriginalLP := step.1
  let originalLPIsSuspicious := step.2
  let hasBurns := 0 < burnCheckedTotal ∨ 0 < burnedBurnAddr
  let lpBurnedPct : ℚ :=
    if 0 < totalOriginalLP then
      let onChainBurned := max 0 (totalOriginalLP - totalCurrentLP)
      let pct := if hasBurns ∧ 0 < totalOriginalLP then
          onChainBurned / totalOriginalLP * 100
        else 0
      if 999 / 10 < pct then 999 / 10 else pct
    else if 0 < burnedBurnAddr ∧ 0 < totalCurrentLP then
      let estimatedOriginal := totalCurrentLP + burnedBurnAddr + burnCheckedTotal
      let pct := if 0 < estimatedOriginal then
          (burnedBurnAddr + burnCheckedTotal) / estimatedOriginal * 100
        else 0
      if 999 / 10 < pct then 999 / 10 else pct
    else if 0 < burnedBurnAddr then 999 / 10
    else 0
  { lpBurnedPct := lpBurnedPct,
    originalLPIsSuspicious := originalLPIsSuspicious,
    totalOriginalLP := totalOriginalLP }

/-! Specification-side definitions.  The next four terms transcribe the
weight table of the specification (section 4.4) word for word, to be
compared with the implementation `calculateRiskScore`. -/

/-- Spec term: mint authority still active gives 30 points. -/
def specMintTerm (tokenInfo : TokenAuthFlags) : Nat :=
  if tokenInfo.mintAuthorityRevoked then 0 else 30

/-- Spec term: freeze authority still active gives 20 points. -/
def specFreezeTerm (tokenInfo : TokenAuthFlags) : Nat :=
  if tokenInfo.freezeAuthorityRevoked then 0 else 20

/-- Spec term: LP destruction banding, 90 and above 0 points, 50 and
above 5, 25 and above 10, 10 and above 15, otherwise 25. -/
def specBurnBandTerm (pct : ℚ) : Nat :=
  if 90 ≤ pct then 0
  else if 50 ≤ pct then 5
  else if 25 ≤ pct then 10
  else if 10 ≤ pct then 15
  else 25

/-- Spec term: top-five-holder share above 50 gives 20 points, above 30
gives 10, otherwise 0. -/
def specConcentrationTerm (holderData : HolderData) : Nat :=
  let top5 := ((holderData.topHolders.take 5).map (·.pct)).sum
  if 50 < top5 then 20 else if 30 < top5 then 10 else 0

/-! Concrete inputs used by the counterexamples and witnesses below. -/

/-- An 82-byte mint account: active mint authority, supply words
low = 1000000000 and high = 7, decimals 9, active freeze authority. -/
def sampleMintBytes : List Nat :=
  [1, 0, 0, 0] ++ List.replicate 32 170 ++
  [0, 202, 154, 59] ++ [7, 0, 0, 0] ++ [9] ++ [0] ++
  [1, 0, 0, 0] ++ List.replicate 32 187

/-- A parsed `burn` instruction of five units. -/
def burnIxFive : Instruction :=
  { parsed := some
      { typ := "burn",
        info :=
          { tokenAmount := some { uiAmount := some 5, decimals := some 9 },
            amount := none, authority := none, mint := none } } }

/-- A transaction carrying two copies of `burnIxFive` under one
signature. -/
def doubleBurnTx : ParsedTx :=
  { instructions := [burnIxFive, burnIxFive], meta := none }

/-- The event list produced by scanning `doubleBurnTx` as the only
transaction of one LP mint. -/
def doubleBurnScan : List BurnEvent :=
  scanBurnEvents [("LP1", [{ sigInfo := { signature := "S1", blockTime := none },
                             tx := some doubleBurnTx }])]

/-- A parsed `burn` instruction of seven units. -/
def burnIxSeven : Instruction :=
  { parsed := some
      { typ := "burn",
        info :=
          { tokenAmount := some { uiAmount := some 7, decimals := some 9 },
            amount := none, authority := none, mint := none } } }

/-- A parsed `closeAccount` instruction. -/
def closeIx : Instruction :=
  { parsed := some
      { typ := "closeAccount",
        info :=
          { tokenAmount := none, amount := none,
            authority := none, mint := none } } }

/-- Metadata showing a balance of seven units of mint `LP2` at account
index two zeroed by the transaction. -/
def zeroedMeta : TxMeta :=
  { preTokenBalances := some [{ accountIndex := 2, mint := "LP2", uiAmount := 7 }],
    postTokenBalances := some [{ accountIndex := 2, mint := "LP2", uiAmount := 0 }] }

/-- A transaction on which both detection methods fire: the explicit
`burn` instruction of seven units and the close-account pattern for the
same seven units. -/
def overlapTx : ParsedTx :=
  { instructions := [burnIxSeven, closeIx], meta := some zeroedMeta }

/-! Theorems. -/

/-- Decomposition of the part_006 risk scorer: the returned value is
the plain sum of the four specification terms; the final clamp to 100
never acts because the terms sum to at most 95. -/
theorem riskScore_eq_terms (tokenInfo : TokenAuthFlags) (burnPercentage : ℚ)
    (holderData : HolderData) (poolsCount : Nat) :
    calculateRiskScore tokenInfo burnPercentage holderData poolsCount =
      specMintTerm tokenInfo + specFreezeTerm tokenInfo +
        specBurnBandTerm burnPercentage + specConcentrationTerm holderData := by
  rcases tokenInfo with ⟨m, f⟩
  rcases holderData with ⟨hs⟩
  cases hs with
  | nil =>
      cases m <;> cases f <;>
        norm_num [calculateRiskScore, specMintTerm, specFreezeTerm,
          specBurnBandTerm, specConcentrationTerm] <;>
        split_ifs <;> omega
  | cons a t =>
      cases m <;> cases f <;>
        simp only [calculateRiskScore, specMintTerm, specFreezeTerm,
          specBurnBandTerm, specConcentrationTerm, List.length_cons,
          Nat.succ_pos, if_true, if_false, Bool.false_eq_true,
          Bool.true_eq_false] <;>
        split_ifs <;> omega

/-- C1: the risk-scoring function computes its score as the sum of
exactly the four specified terms — authority weights 30 and 20, the
inverse burn-ratio band (0/5/10/15/25), and the top-five-holder
concentration term (20/10/0) — for every combination of authority
flags, burn ratio and holder data. -/
theorem c1_riskScore_is_sum_of_spec_terms (tokenInfo : TokenAuthFlags)
    (burnPercentage : ℚ) (holderData : HolderData) (poolsCount : Nat) :
    calculateRiskScore tokenInfo burnPercentage holderData poolsCount =
      specMintTerm tokenInfo + specFreezeTerm tokenInfo +
        specBurnBandTerm burnPercentage + specConcentrationTerm holderData :=
  riskScore_eq_terms tokenInfo burnPercentage holderData poolsCount

/-- C2: the claimed category boundaries (0-24 LOW, 25-49 MEDIUM,
50-75 HIGH, 76-100 CRITICAL) are the ones the same script prints as its
legend and its sibling scripts implement, but `getRiskRating` itself
uses non-strict comparisons: score 25 is rated LOW (the claim and the
legend say MEDIUM) and score 50 is rated MEDIUM (the claim and the
legend say HIGH).  The remaining boundary points 24, 75 and 76 agree. -/
theorem c2_getRiskRating_contradicts_legend :
    getRiskRating 24 = RiskRating.LOW ∧
    getRiskRating 25 = RiskRating.LOW ∧
    getRiskRating 50 = RiskRating.MEDIUM ∧
    getRiskRating 75 = RiskRating.HIGH ∧
    getRiskRating 76 = RiskRating.CRITICAL ∧
    legendRiskRating 25 = RiskRating.MEDIUM ∧
    legendRiskRating 50 = RiskRating.HIGH := by
  decide

/-- C3 counterexample: an 81-byte account datum is below the claimed
82-byte minimum, yet the decoder does not fail: it returns the ordinary
initial descriptor, with no error of any kind. -/
theorem c3_short_input_returns_default :
    checkTokenAuthorities (List.replicate 81 255) = defaultMintInfo := by
  decide

/-- C3 amended: the decoder is total and never fails; for every input
shorter than 82 bytes it returns the untouched default descriptor (no
authorities, neither flagged revoked, zero supply and decimals) instead
of a MalformedAccount failure, and on longer inputs it likewise returns
normally. -/
theorem c3_decoder_total_on_short_input (data : List Nat)
    (h : data.length < 82) :
    checkTokenAuthorities data = defaultMintInfo := by
  unfold checkTokenAuthorities
  rw [if_neg]
  omega

/-- C3 witness: the amended statement at the concrete three-byte
input. -/
theorem c3_decoder_total_witness :
    ([1, 2, 3] : List Nat).length < 82 ∧
      checkTokenAuthorities [1, 2, 3] = defaultMintInfo :=
  ⟨by decide, c3_decoder_total_on_short_input [1, 2, 3] (by decide)⟩

/-- Every little-endian 32-bit word read from a list of genuine bytes
is below 2 ^ 32. -/
theorem readUInt32LE_lt_two_pow_32 (data : List Nat) (off : Nat)
    (hbytes : ∀ b ∈ data, b < 256) : readUInt32LE data off < 2 ^ 32 := by
  have h : ∀ i, data.getD i 0 ≤ 255 := by
    intro i
    by_cases hi : i < data.length
    · have hmem : data.get ⟨i, hi⟩ ∈ data := data.get_mem _ _
      have hb := hbytes _ hmem
      have heq : data.getD i 0 = data.get ⟨i, hi⟩ := by
        simp [List.getD_eq_getElem?_getD, List.getElem?_eq_getElem hi]
      omega
    · have heq : data.getD i 0 = 0 := by
        simp [List.getD_eq_getElem?_getD,
          List.getElem?_eq_none (le_of_not_lt hi)]
      omega
  have h0 := h off
  have h1 := h (off + 1)
  have h2 := h (off + 2)
  have h3 := h (off + 3)
  unfold readUInt32LE
  omega

/-- Combining a shifted high word with a low word below 2 ^ 32 by
bitwise or is exact addition. -/
theorem shiftLeft32_or_eq_add (a b : Nat) (hb : b < 2 ^ 32) :
    (a <<< 32) ||| b = a * 2 ^ 32 + b := by
  rw [Nat.shiftLeft_eq, mul_comm]
  exact (Nat.mul_add_lt_is_or hb a).symm

/-- C4: for every mint-account input of at least 82 genuine bytes, the
decoded raw supply is the 64-bit value combined from the little-endian
32-bit words at offsets 36 (low) and 40 (high), that is
high * 2 ^ 32 + low, and the decoded decimals field is the byte at
offset 44. -/
theorem c4_supply_and_decimals_decoding (data : List Nat)
    (h82 : 82 ≤ data.length) (hbytes : ∀ b ∈ data, b < 256) :
    (checkTokenAuthorities data).supply =
      readUInt32LE data 40 * 2 ^ 32 + readUInt32LE data 36 ∧
    (checkTokenAuthorities data).decimals = data.getD 44 0 := by
  have hlow := readUInt32LE_lt_two_pow_32 data 36 hbytes
  unfold checkTokenAuthorities
  rw [if_pos h82]
  unfold decodeMintFields
  unfold readUInt8
  dsimp only
  constructor
  · split_ifs <;> exact shiftLeft32_or_eq_add _ _ hlow
  · split_ifs <;> rfl

/-- C4 witness: the decoding equalities at the concrete 82-byte sample
account, whose supply words are low = 1000000000 and high = 7. -/
theorem c4_supply_and_decimals_witness :
    82 ≤ sampleMintBytes.length ∧
    (∀ b ∈ sampleMintBytes, b < 256) ∧
    ((checkTokenAuthorities sampleMintBytes).supply =
        readUInt32LE sampleMintBytes 40 * 2 ^ 32 +
          readUInt32LE sampleMintBytes 36 ∧
      (checkTokenAuthorities sampleMintBytes).decimals =
        sampleMintBytes.getD 44 0) :=
  ⟨by decide, by decide,
    c4_supply_and_decimals_decoding sampleMintBytes (by decide) (by decide)⟩

/-- The burn-band term is antitone: a higher burn ratio never gives a
larger term. -/
theorem specBurnBandTerm_antitone {r1 r2 : ℚ} (h : r1 ≤ r2) :
    specBurnBandTerm r2 ≤ specBurnBandTerm r1 := by
  unfold specBurnBandTerm
  split_ifs <;> first | omega | linarith

/-- C8 counterexample: the batch auditor scorer of src/x1-batch-audit.js
violates the claimed authority monotonicity at a concrete input —
revoking the mint authority (with everything else fixed) raises its
score from 0 to 30. -/
theorem c8_batch_scorer_not_monotone :
    batchCalculateRiskScore
        { mintAuthorityRevoked := false, freezeAuthorityRevoked := false,
          lpNotBurned := false, holderCount := 0 } = 0 ∧
    batchCalculateRiskScore
        { mintAuthorityRevoked := true, freezeAuthorityRevoked := false,
          lpNotBurned := false, holderCount := 0 } = 30 := by
  decide

/-- C8 amended: the part_006 risk scorer is monotonic as claimed —
raising the burn ratio never increases the score, and revoking either
authority never increases the score — while the batch auditor scorer
(see the counterexample) is not. -/
theorem c8_part006_scorer_monotone (tokenInfo : TokenAuthFlags)
    (holderData : HolderData) (poolsCount : Nat) (r1 r2 : ℚ) (h : r1 ≤ r2) :
    calculateRiskScore tokenInfo r2 holderData poolsCount ≤
      calculateRiskScore tokenInfo r1 holderData poolsCount ∧
    (∀ (f : Bool) (r : ℚ),
      calculateRiskScore ⟨true, f⟩ r holderData poolsCount ≤
        calculateRiskScore ⟨false, f⟩ r holderData poolsCount) ∧
    (∀ (m : Bool) (r : ℚ),
      calculateRiskScore ⟨m, true⟩ r holderData poolsCount ≤
        calculateRiskScore ⟨m, false⟩ r holderData poolsCount) := by
  refine ⟨?_, ?_, ?_⟩
  · rw [riskScore_eq_terms, riskScore_eq_terms]
    have hband := specBurnBandTerm_antitone h
    omega
  · intro f r
    rw [riskScore_eq_terms, riskScore_eq_terms]
    simp [specMintTerm, specFreezeTerm]
  · intro m r
    rw [riskScore_eq_terms, riskScore_eq_terms]
    simp [specMintTerm, specFreezeTerm]

/-- C8 witness: the amended monotonicity applied with the burn ratio
moved from 0 to 95 at otherwise fixed inputs. -/
theorem c8_part006_scorer_monotone_witness :
    (0 : ℚ) ≤ 95 ∧
    (calculateRiskScore ⟨false, false⟩ 95 ⟨[]⟩ 0 ≤
        calculateRiskScore ⟨false, false⟩ 0 ⟨[]⟩ 0 ∧
      (∀ (f : Bool) (r : ℚ),
        calculateRiskScore ⟨true, f⟩ r ⟨[]⟩ 0 ≤
          calculateRiskScore ⟨false, f⟩ r ⟨[]⟩ 0) ∧
      (∀ (m : Bool) (r : ℚ),
        calculateRiskScore ⟨m, true⟩ r ⟨[]⟩ 0 ≤
          calculateRiskScore ⟨m, false⟩ r ⟨[]⟩ 0)) :=
  ⟨by norm_num,
    c8_part006_scorer_monotone ⟨false, false⟩ ⟨[]⟩ 0 0 95 (by norm_num)⟩

/-- C9: in the batch auditor scorer, with all other inputs fixed, a
true mintAuthorityRevoked flag yields a score exactly 30 points higher
than the same audit with the flag false, and a true
freezeAuthorityRevoked flag exactly 20 points higher: revoked
authorities increase the reported risk score. -/
theorem c9_batch_scorer_revoked_adds_points (m f lp : Bool) (hc : Nat) :
    batchCalculateRiskScore
        { mintAuthorityRevoked := true, freezeAuthorityRevoked := f,
          lpNotBurned := lp, holderCount := hc } =
      batchCalculateRiskScore
        { mintAuthorityRevoked := false, freezeAuthorityRevoked := f,
          lpNotBurned := lp, holderCount := hc } + 30 ∧
    batchCalculateRiskScore
        { mintAuthorityRevoked := m, freezeAuthorityRevoked := true,
          lpNotBurned := lp, holderCount := hc } =
      batchCalculateRiskScore
        { mintAuthorityRevoked := m, freezeAuthorityRevoked := false,
          lpNotBurned := lp, holderCount := hc } + 20 := by
  cases m <;> cases f <;> cases lp <;>
    simp [batchCalculateRiskScore] <;> split_ifs <;> omega

/-- Every event produced by the burn-instruction pass carries the
signature of the scanned transaction. -/
theorem burnIxEvents_signature (sigInfo : SigInfo) (lpMint : String)
    (tx : ParsedTx) (e : BurnEvent)
    (he : e ∈ burnIxEvents sigInfo lpMint tx) :
    e.signature = sigInfo.signature := by
  unfold burnIxEvents at he
  rw [List.mem_filterMap] at he
  obtain ⟨ix, -, hix⟩ := he
  cases hp : ix.parsed with
  | none => rw [hp] at hix; cases hix
  | some p =>
      rw [hp] at hix
      dsimp only at hix
      split_ifs at hix
      have := Option.some.inj hix
      subst this
      rfl

/-- The close-account step leaves the event list unchanged whenever an
event with the current signature is already recorded. -/
theorem closeStep_id_of_signature_present (sigInfo : SigInfo)
    (lpMint : String) (tx : ParsedTx) (posts : List TokenBalance)
    (evs : List BurnEvent) (pre : TokenBalance)
    (h : evs.any (·.signature = sigInfo.signature) = true) :
    closeStep sigInfo lpMint tx posts evs pre = evs := by
  simp [closeStep, h]

/-- The whole pre-balance loop leaves the event list unchanged whenever
an event with the current signature is already recorded. -/
theorem foldl_closeStep_id (sigInfo : SigInfo) (lpMint : String)
    (tx : ParsedTx) (posts : List TokenBalance) (pres : List TokenBalance) :
    ∀ evs, evs.any (·.signature = sigInfo.signature) = true →
      pres.foldl (closeStep sigInfo lpMint tx posts) evs = evs := by
  induction pres with
  | nil => intro evs _; rfl
  | cons p ps ih =>
      intro evs h
      rw [List.foldl_cons,
        closeStep_id_of_signature_present sigInfo lpMint tx posts evs p h]
      exact ih evs h

/-- The close-account pass adds nothing whenever an event with the
current signature is already recorded. -/
theorem closeAccountPass_id (sigInfo : SigInfo) (lpMint : String)
    (tx : ParsedTx) (events : List BurnEvent)
    (h : events.any (·.signature = sigInfo.signature) = true) :
    closeAccountPass sigInfo lpMint tx events = events := by
  unfold closeAccountPass
  cases htx : tx.meta with
  | none => rfl
  | some meta =>
      rcases meta with ⟨preOpt, postOpt⟩
      cases preOpt with
      | none => rfl
      | some pres =>
          cases postOpt with
          | none => rfl
          | some posts =>
              exact foldl_closeStep_id sigInfo lpMint tx posts pres events h

/-- C5 counterexample: one transaction with two parsed burn
instructions of five units yields two events with the identical key
(signature S1, method burn), and the summed destroyed total counts the
amount twice — the event list is not uniquely keyed by
(signature, method). -/
theorem c5_duplicate_key_counterexample :
    (doubleBurnScan.map fun e => (e.signature, e.typ)) =
      [("S1", "burn"), ("S1", "burn")] ∧
    totalBurnChecked doubleBurnScan = 10 := by
  constructor
  · simp [doubleBurnScan, scanBurnEvents, scanLpMint, processTx, burnIxFive,
      doubleBurnTx, burnIxEvents, closeAccountPass, jsOrQ, jsOrNat]
  · simp [doubleBurnScan, scanBurnEvents, scanLpMint, processTx, burnIxFive,
      doubleBurnTx, burnIxEvents, closeAccountPass, jsOrQ, jsOrNat,
      totalBurnChecked]
    norm_num

/-- C5 amended: deduplication is by signature alone and is applied only
by the close-account method.  Whenever the explicit burn-instruction
method fires on a transaction, the close-account pass adds no event for
that signature, so processing the transaction appends exactly the
burn-instruction events and the overlapping close-account amount is
counted exactly once. -/
theorem c5_dedup_by_signature_only (lpMint : String)
    (events : List BurnEvent) (sigInfo : SigInfo) (tx : ParsedTx)
    (h : burnIxEvents sigInfo lpMint tx ≠ []) :
    processTx lpMint events ⟨sigInfo, some tx⟩ =
      events ++ burnIxEvents sigInfo lpMint tx := by
  unfold processTx
  apply closeAccountPass_id
  obtain ⟨e, he⟩ := List.exists_mem_of_ne_nil _ h
  rw [List.any_eq_true]
  refine ⟨e, List.mem_append_right _ he, ?_⟩
  simp [burnIxEvents_signature sigInfo lpMint tx e he]

/-- C5 witness: the amended statement at the concrete overlap
transaction, on which both the burn-instruction method and the
close-account pattern fire for the same seven units. -/
theorem c5_dedup_witness :
    burnIxEvents ⟨"S2", none⟩ "LP2" overlapTx ≠ [] ∧
    processTx "LP2" [] ⟨⟨"S2", none⟩, some overlapTx⟩ =
      [] ++ burnIxEvents ⟨"S2", none⟩ "LP2" overlapTx :=
  ⟨by simp [burnIxEvents, overlapTx, burnIxSeven, closeIx, jsOrQ, jsOrNat],
    c5_dedup_by_signature_only "LP2" [] ⟨"S2", none⟩ overlapTx
      (by simp [burnIxEvents, overlapTx, burnIxSeven, closeIx, jsOrQ, jsOrNat])⟩

/-- C6 counterexample: with the reported original LP supply zero, a
positive sink-address total but zero current circulating supply, the
computation forces the ratio to 99.9 yet does not mark the summary as
estimated — the suspicious flag stays false. -/
theorem c6_zero_original_not_marked_estimated :
    computeLpBurn 0 0 0 5 =
      { lpBurnedPct := 999 / 10, originalLPIsSuspicious := false,
        totalOriginalLP := 0 } := by
  norm_num [computeLpBurn]

/-- C6 amended: the estimation path runs only when, in addition to the
reported original supply being zero, burn evidence exists and the
current circulating supply is positive; in that case the original
supply is estimated as circulating plus destroyed, the summary is
marked estimated (suspicious), and the ratio is
destroyed / (circulating + destroyed) * 100 capped at 99.9. -/
theorem c6_estimation_marks_and_caps (c bc ba : ℚ) (hc : 0 < c)
    (hbc : 0 ≤ bc) (hba : 0 ≤ ba) (hburn : 0 < bc ∨ 0 < ba) :
    (computeLpBurn 0 c bc ba).originalLPIsSuspicious = true ∧
    (computeLpBurn 0 c bc ba).totalOriginalLP = c + bc + ba ∧
    (computeLpBurn 0 c bc ba).lpBurnedPct =
      min (999 / 10) ((bc + ba) / (c + bc + ba) * 100) := by
  have hO : (0 : ℚ) < c + bc + ba := by linarith
  have h1 : (0 < bc ∨ 0 < ba) ∧ 0 < c := ⟨hburn, hc⟩
  have h2 : (0 < bc ∨ 0 < ba) ∧ 0 < c + bc + ba := ⟨hburn, hO⟩
  simp only [computeLpBurn]
  rw [if_pos h1]
  simp only [if_true]
  rw [if_pos hO, if_pos h2]
  have hmax : max (0 : ℚ) (c + bc + ba - c) = bc + ba := by
    rw [show c + bc + ba - c = bc + ba by ring]
    exact max_eq_right (by linarith)
  rw [hmax]
  refine ⟨trivial, trivial, ?_⟩
  by_cases hcap : (999 : ℚ) / 10 < (bc + ba) / (c + bc + ba) * 100
  · rw [if_pos hcap, min_eq_left (le_of_lt hcap)]
  · rw [if_neg hcap, min_eq_right (le_of_not_lt hcap)]

/-- C6 witness: the amended statement with circulating 100, burn
instructions totalling 50 and no sink balance; the estimated ratio is
one third of one hundred. -/
theorem c6_estimation_witness :
    (0 : ℚ) < 100 ∧
    ((computeLpBurn 0 100 50 0).originalLPIsSuspicious = true ∧
      (computeLpBurn 0 100 50 0).totalOriginalLP = 100 + 50 + 0 ∧
      (computeLpBurn 0 100 50 0).lpBurnedPct =
        min (999 / 10) ((50 + 0) / (100 + 50 + 0) * 100)) :=
  ⟨by norm_num,
    c6_estimation_marks_and_caps 100 50 0 (by norm_num) (by norm_num)
      (by norm_num) (Or.inl (by norm_num))⟩

/-- C7 counterexample: in the LP-burn checker orchestrator, a failing
pool-list fetch is not treated as zero pools — it is fatal to the whole
audit (the source calls process.exit(1); the model propagates the
error). -/
theorem c7_pool_fetch_failure_is_fatal :
    mainFetchPools "TOKEN" (Except.error "ECONNREFUSED") =
      Except.error "ECONNREFUSED" ∧
    mainFetchPools "TOKEN" (Except.error "ECONNREFUSED") ≠
      Except.ok [] := by
  exact ⟨rfl, fun hcontra => Except.noConfusion hcontra⟩

/-- C7 amended: the pool resolver `findXDEXPools` of the single-token
auditor behaves as claimed — it returns exactly the pools whose pair
contains the token by exact identifier equality on either side, an
empty list when none match or the payload is missing, and an empty list
(never a fault) on collaborator failure — while the LP-burn checker
orchestrator turns a collaborator failure into a fatal error (see the
counterexample). -/
theorem c7_findXDEXPools_exact_match_and_recovery (t : String)
    (l : List XPool) (e : String) (p : XPool) :
    (p ∈ findXDEXPools t (Except.ok (some l)) ↔
      p ∈ l ∧ (p.token1_address = t ∨ p.token2_address = t)) ∧
    findXDEXPools t (Except.ok none) = [] ∧
    findXDEXPools t (Except.error e) = [] ∧
    mainFetchPools t (Except.error e) = Except.error e := by
  refine ⟨?_, rfl, rfl, rfl⟩
  simp [findXDEXPools, List.mem_filter]

/-- C10: the holder-listing function excludes burn-owned accounts from
the returned holder list (every returned holder has a positive balance
and a non-sink owner), yet the total supply it reports — and uses as
the percentage denominator — is the sum over all scanned accounts,
burn-owned balances included; every returned holder carries the
percentage amount / total * 100 over that inclusive total. -/
theorem c10_holders_exclude_burn_include_total
    (accounts : List (Option ParsedTokenAccount))
    (hnn : ∀ a ∈ accounts.filterMap id, 0 ≤ a.amount) :
    (getTokenHolders accounts).totalSupply =
      ((accounts.filterMap id).map (·.amount)).sum ∧
    ∀ h ∈ (getTokenHolders accounts).topHolders,
      BURN_ADDRESSES.contains h.address = false ∧
      0 < h.amount ∧
      h.pct = h.amount / (getTokenHolders accounts).totalSupply * 100 := by
  constructor
  · rfl
  · intro h hmem
    unfold getTokenHolders at hmem
    dsimp only at hmem
    have hmem2 := List.mem_mergeSort.mp (List.mem_of_mem_take hmem)
    by_cases hS :
        (0 : ℚ) < ((accounts.filterMap id).map (·.amount)).sum
    · rw [if_pos hS] at hmem2
      obtain ⟨h0, hh0, rfl⟩ := List.mem_map.mp hmem2
      obtain ⟨a, ha, hfa⟩ := List.mem_filterMap.mp hh0
      split_ifs at hfa with hcond
      have := Option.some.inj hfa
      subst this
      refine ⟨?_, hcond.2, rfl⟩
      simpa using hcond.1
    · rw [if_neg hS] at hmem2
      obtain ⟨a, ha, hfa⟩ := List.mem_filterMap.mp hmem2
      split_ifs at hfa with hcond
      exfalso
      apply hS
      have hmemamt : a.amount ∈ (accounts.filterMap id).map (·.amount) :=
        List.mem_map_of_mem _ ha
      have hle := List.single_le_sum
        (fun x hx => by
          obtain ⟨b, hb, rfl⟩ := List.mem_map.mp hx
          exact hnn b hb)
        _ hmemamt
      linarith [hcond.2]

/-- C10 witness: the statement at a concrete snapshot of one ordinary
holder, one incinerator-owned account and one failed lookup. -/
theorem c10_holders_witness :
    (∀ a ∈ ([some { owner := "alice", amount := 60 },
        some { owner := "1nc1nerator11111111111111111111111111111111",
               amount := 40 },
        none] : List (Option ParsedTokenAccount)).filterMap id,
      0 ≤ a.amount) ∧
    ((getTokenHolders [some { owner := "alice", amount := 60 },
        some { owner := "1nc1nerator11111111111111111111111111111111",
               amount := 40 },
        none]).totalSupply =
      ((([some { owner := "alice", amount := 60 },
          some { owner := "1nc1nerator11111111111111111111111111111111",
                 amount := 40 },
          none] : List (Option ParsedTokenAccount)).filterMap id).map
            (·.amount)).sum ∧
    ∀ h ∈ (getTokenHolders [some { owner := "alice", amount := 60 },
        some { owner := "1nc1nerator11111111111111111111111111111111",
               amount := 40 },
        none]).topHolders,
      BURN_ADDRESSES.contains h.address = false ∧
      0 < h.amount ∧
      h.pct = h.amount /
          (getTokenHolders [some { owner := "alice", amount := 60 },
            some { owner := "1nc1nerator11111111111111111111111111111111",
                   amount := 40 },
            none]).totalSupply * 100) :=
  ⟨by decide,
    c10_holders_exclude_burn_include_total
      [some { owner := "alice", amount := 60 },
       some { owner := "1nc1nerator11111111111111111111111111111111",
              amount := 40 },
       none] (by decide)⟩

end X1Audit
